import Mathlib

/-!
Shallow embedding of the Power BI command-line client (`main.py`).

HTTP traffic is modelled by passing the upstream `HttpResponse` as an
explicit argument; each operation also returns the `HttpRequest` it would
issue, so that claims about endpoints and about which arguments influence
a call can be stated. Python exceptions are modelled with `Except String`:
an `Except.error` is an exception escaping the function, an `Except.ok`
is a normal return. Console output (`print`) is modelled as a list of
printed lines returned alongside the value.
-/

/-- A JSON value, as produced by `response.json()`. -/
inductive Json where
  | null
  | bool (b : Bool)
  | num (n : Int)
  | str (s : String)
  | arr (xs : List Json)
  | obj (fields : List (String × Json))
deriving Repr

/-- Association-list lookup for JSON object fields (Python dict lookup). -/
def lookupField : List (String × Json) → String → Option Json
  | [], _ => none
  | (k, v) :: rest, key => if k = key then some v else lookupField rest key

/-- Python `d.get(key, default)`: raises `AttributeError` when the receiver
is not a dict. -/
def json_dict_get (j : Json) (key : String) (default : Json) : Except String Json :=
  match j with
  | .obj fields => .ok ((lookupField fields key).getD default)
  | _ => .error "AttributeError"

/-- Python `d.get(key)` on a record-shaped (object) JSON value; `none` models
Python `None` for a missing key. -/
def json_get? (j : Json) (key : String) : Option Json :=
  match j with
  | .obj fields => lookupField fields key
  | _ => none

/-- Python subscript `item[key]`: `KeyError` on a dict without the key,
`TypeError` on a non-dict receiver. -/
def json_index (j : Json) (key : String) : Except String Json :=
  match j with
  | .obj fields =>
    match lookupField fields key with
    | some v => .ok v
    | none => .error "KeyError"
  | _ => .error "TypeError"

/-- Python truthiness of a JSON value (`if x:`). -/
def Json.truthy : Json → Bool
  | .null => false
  | .bool b => b
  | .num n => !(n = 0)
  | .str s => !(s = "")
  | .arr xs => !xs.isEmpty
  | .obj fields => !fields.isEmpty

/-- Python iteration `for item in x`: lists yield elements, strings yield
single-character strings, dicts yield their keys, other values raise
`TypeError`. -/
def py_iter (j : Json) : Except String (List Json) :=
  match j with
  | .arr xs => .ok xs
  | .str s => .ok (s.data.map fun c => Json.str (String.mk [c]))
  | .obj fields => .ok (fields.map fun f => Json.str f.1)
  | _ => .error "TypeError"

/-- An upstream HTTP response: status code, the parsed JSON body when the
body is valid JSON (`none` models a body on which `response.json()` raises),
and the raw body text. -/
structure HttpResponse where
  status_code : Nat
  body : Option Json
  text : String

/-- The request an operation issues: target URL and bearer token attached
in the `Authorization` header. -/
structure HttpRequest where
  url : String
  bearer : String
deriving DecidableEq

/-- `POWER_BI_BASE_URL` from `main.py`. -/
def POWER_BI_BASE_URL : String := "https://api.powerbi.com/v1.0/myorg"

/-- The identity provider's reply to `acquire_token_for_client`, a dict
with optional `access_token` and `error_description` entries. -/
structure TokenResponse where
  access_token : Option String
  error_description : Option String
deriving DecidableEq, Repr

/-- `request_access_token` from `main.py`, given the provider's reply:
raises (`Except.error`) when `access_token` is absent, carrying the
provider's `error_description` (or `Desconhecido`); otherwise returns the
token. -/
def request_access_token (token_response : TokenResponse) : Except String String :=
  match token_response.access_token with
  | none =>
      .error ("Erro na autenticação: " ++ token_response.error_description.getD "Desconhecido")
  | some t => .ok t

/-- The identity provider as seen over the network: a queue of replies it
will issue, and a count of network requests made so far. -/
structure ProviderState where
  responses : List TokenResponse
  network_calls : Nat
deriving DecidableEq, Repr

/-- One network round-trip of `acquire_token_for_client`: consumes the next
queued provider reply (an empty dict once the queue is exhausted) and
increments the request counter. -/
def acquire_token_for_client (s : ProviderState) : TokenResponse × ProviderState :=
  match s.responses with
  | [] => (⟨none, none⟩, ⟨[], s.network_calls + 1⟩)
  | r :: rest => (r, ⟨rest, s.network_calls + 1⟩)

/-- A full invocation of `request_access_token` against the provider: the
source constructs a fresh `ConfidentialClientApplication` and calls
`acquire_token_for_client` unconditionally on every invocation — there is
no cache consulted or filled. -/
def request_access_token_run (s : ProviderState) : Except String String × ProviderState :=
  let p := acquire_token_for_client s
  (request_access_token p.1, p.2)

/-- `list_workspaces` from `main.py`: GET `/groups`; on 200 returns
`response.json().get("value", [])` (the `.json()` call is unguarded, so a
non-JSON body raises), on any other status prints an error line and
returns `[]`. Result: the issued request, and either an escaping exception
or the returned value together with the printed lines. -/
def list_workspaces (access_token : String) (response : HttpResponse) :
    HttpRequest × Except String (Json × List String) :=
  let endpoint := POWER_BI_BASE_URL ++ "/groups"
  let req : HttpRequest := ⟨endpoint, access_token⟩
  if response.status_code = 200 then
    match response.body with
    | none => (req, .error "JSONDecodeError")
    | some j =>
      match json_dict_get j "value" (.arr []) with
      | .error e => (req, .error e)
      | .ok v => (req, .ok (v, []))
  else
    (req, .ok (.arr [],
      ["Erro ao listar workspaces: " ++ toString response.status_code ++ " - " ++ response.text]))

/-- `list_reports` from `main.py`: GET `/groups/{group_id}/reports`; same
shape as `list_workspaces` (unguarded `.json()` on 200, error line plus
`[]` otherwise). -/
def list_reports (access_token : String) (group_id : String) (response : HttpResponse) :
    HttpRequest × Except String (Json × List String) :=
  let endpoint := POWER_BI_BASE_URL ++ "/groups/" ++ group_id ++ "/reports"
  let req : HttpRequest := ⟨endpoint, access_token⟩
  if response.status_code = 200 then
    match response.body with
    | none => (req, .error "JSONDecodeError")
    | some j =>
      match json_dict_get j "value" (.arr []) with
      | .error e => (req, .error e)
      | .ok v => (req, .ok (v, []))
  else
    (req, .ok (.arr [],
      ["Erro ao listar relatórios: " ++ toString response.status_code ++ " - " ++ response.text]))

/-- `list_datasets` from `main.py`: GET `/groups/{group_id}/datasets`. On
200 the `.json().get(...)` is wrapped in `try/except JSONDecodeError`, so
a non-JSON body is degraded to a printed notice and `[]` (an
`AttributeError` from `.get` on a non-dict body is not caught); 401 prints
a dedicated two-line notice; any other status prints a generic error line;
all non-200 paths return `[]`. -/
def list_datasets (access_token : String) (group_id : String) (response : HttpResponse) :
    HttpRequest × Except String (Json × List String) :=
  let endpoint := POWER_BI_BASE_URL ++ "/groups/" ++ group_id ++ "/datasets"
  let req : HttpRequest := ⟨endpoint, access_token⟩
  if response.status_code = 200 then
    match response.body with
    | none => (req, .ok (.arr [], ["❌ Erro ao decodificar JSON: resposta vazia."]))
    | some j =>
      match json_dict_get j "value" (.arr []) with
      | .error e => (req, .error e)
      | .ok v => (req, .ok (v, []))
  else if response.status_code = 401 then
    (req, .ok (.arr [],
      ["❌ Erro 401: Token inválido ou sem permissão.",
       "Verifique se as permissões do aplicativo estão configuradas corretamente no Azure."]))
  else
    (req, .ok (.arr [],
      ["❌ Erro " ++ toString response.status_code ++ ": " ++ response.text]))

/-- The eager list comprehension
`[item["name"] for item in ...]` of `get_dataset_tables`: collects each
item's `name` entry, raising at the first item on which the unguarded
subscript raises. -/
def extract_names : List Json → Except String (List Json)
  | [] => .ok []
  | item :: rest =>
    match json_index item "name" with
    | .error e => .error e
    | .ok v =>
      match extract_names rest with
      | .error e => .error e
      | .ok vs => .ok (v :: vs)

/-- Whether a JSON value is a dict carrying a `name` key, i.e. whether the
subscript `item["name"]` succeeds on it. -/
def json_has_name (j : Json) : Bool :=
  match j with
  | .obj fields => (lookupField fields "name").isSome
  | _ => false

/-- The `name` entry of a dict-shaped JSON value (meaningful when
`json_has_name` holds). -/
def json_name_value (j : Json) : Json :=
  match j with
  | .obj fields => (lookupField fields "name").getD .null
  | _ => .null

/-- `get_dataset_tables` from `main.py`: GET `/datasets/{dataset_id}/lineage`
— the `group_id` parameter is accepted but never used. On 200 it extracts
`[item["name"] for item in lineage_data.get("datasetSchema", {}).get("tables", [])]`
with unguarded indexing (a missing `name` key raises); on 403 it prints a
two-line permission-denied notice and returns `[]`; on any other status it
prints a one-line generic error and returns `[]`. -/
def get_dataset_tables (access_token : String) (group_id : String) (dataset_id : String)
    (response : HttpResponse) : HttpRequest × Except String (List Json × List String) :=
  let endpoint := "https://api.powerbi.com/v1.0/myorg/datasets/" ++ dataset_id ++ "/lineage"
  let req : HttpRequest := ⟨endpoint, access_token⟩
  if response.status_code = 200 then
    match response.body with
    | none => (req, .error "JSONDecodeError")
    | some lineage_data =>
      match json_dict_get lineage_data "datasetSchema" (.obj []) with
      | .error e => (req, .error e)
      | .ok schema =>
        match json_dict_get schema "tables" (.arr []) with
        | .error e => (req, .error e)
        | .ok tablesJson =>
          match py_iter tablesJson with
          | .error e => (req, .error e)
          | .ok items =>
            match extract_names items with
            | .error e => (req, .error e)
            | .ok tables => (req, .ok (tables, []))
  else if response.status_code = 403 then
    (req, .ok ([],
      ["🚫 Permissão negada para acessar o dataset " ++ dataset_id ++ ".",
       "Erro 403: " ++ response.text]))
  else
    (req, .ok ([],
      ["❌ Erro ao obter tabelas do dataset " ++ dataset_id ++ ": " ++
        toString response.status_code ++ " - " ++ response.text]))

/-- The observable per-report behaviour of the loop body of
`list_reports_and_tables`: the dataset ids passed to `get_dataset_tables`
(in order; the loop body contains a single call site, taken only when
`if dataset_id:` is truthy) and whether the
"Este relatório não tem um dataset vinculado" line is printed. -/
structure ReportProcessing where
  lineage_call_args : List Json
  no_bound_model : Bool
deriving Repr

/-- One iteration of the `for report in reports` loop of
`list_reports_and_tables` in `main.py`: `dataset_id = report.get("datasetId")`;
when `dataset_id` is truthy, `get_dataset_tables` is called once with it,
otherwise the no-bound-model line is printed and no lineage call is made. -/
def process_report (report : Json) : ReportProcessing :=
  let dataset_id := json_get? report "datasetId"
  match dataset_id with
  | some d => if d.truthy then ⟨[d], false⟩ else ⟨[], true⟩
  | none => ⟨[], true⟩

/-- The loop of `list_reports_and_tables` from `main.py` over the report
list returned by `list_reports`, recording each report's lineage calls and
no-bound-model flag in report order. -/
def list_reports_and_tables (reports : List Json) : List ReportProcessing :=
  match reports with
  | [] => []
  | r :: rest => process_report r :: list_reports_and_tables rest

/-- The success line printed by `update_semantic_model` on a 202 response. -/
def refresh_success_message : String :=
  "✅ Atualização do modelo semântico iniciada com sucesso!"

/-- `update_semantic_model` from `main.py`: POST
`/groups/{group_id}/datasets/{dataset_id}/refreshes`; prints the success
line exactly when the status is 202, otherwise prints an error line. -/
def update_semantic_model (group_id : String) (dataset_id : String) (access_token : String)
    (response : HttpResponse) : HttpRequest × List String :=
  let endpoint := "https://api.powerbi.com/v1.0/myorg/groups/" ++ group_id ++
    "/datasets/" ++ dataset_id ++ "/refreshes"
  let req : HttpRequest := ⟨endpoint, access_token⟩
  if response.status_code = 202 then
    (req, [refresh_success_message])
  else
    (req, ["❌ Erro ao atualizar o modelo semântico: " ++ toString response.status_code ++
      " - " ++ response.text])

/-! ### Helper lemmas -/

/-- `extract_names` succeeds and returns the `name` entries in order when
every item carries a `name` key. -/
theorem extract_names_ok (items : List Json) (h : ∀ i ∈ items, json_has_name i = true) :
    extract_names items = .ok (items.map json_name_value) := by
  induction items with
  | nil => rfl
  | cons head tail ih =>
    have hh := h head (List.mem_cons_self _ _)
    have ht := ih fun i hi => h i (List.mem_cons_of_mem _ hi)
    cases head with
    | obj fields =>
      cases hv : lookupField fields "name" with
      | none => simp [json_has_name, hv] at hh
      | some v => simp [extract_names, json_index, hv, ht, json_name_value]
    | null => simp [json_has_name] at hh
    | bool b => simp [json_has_name] at hh
    | num n => simp [json_has_name] at hh
    | str s => simp [json_has_name] at hh
    | arr xs => simp [json_has_name] at hh

/-- The unguarded subscript `item["name"]` raises on any item without a
`name` key. -/
theorem json_index_error_of_not_has_name (j : Json) (h : json_has_name j = false) :
    ∃ e, json_index j "name" = .error e := by
  cases j with
  | obj fields =>
    cases hv : lookupField fields "name" with
    | none => exact ⟨"KeyError", by simp [json_index, hv]⟩
    | some v => simp [json_has_name, hv] at h
  | null => exact ⟨"TypeError", rfl⟩
  | bool b => exact ⟨"TypeError", rfl⟩
  | num n => exact ⟨"TypeError", rfl⟩
  | str s => exact ⟨"TypeError", rfl⟩
  | arr xs => exact ⟨"TypeError", rfl⟩

/-- `extract_names` raises when some item lacks a `name` key. -/
theorem extract_names_error (items : List Json)
    (h : ∃ i ∈ items, json_has_name i = false) :
    ∃ e, extract_names items = .error e := by
  induction items with
  | nil => simp at h
  | cons head tail ih =>
    by_cases hh : json_has_name head = false
    · obtain ⟨e, he⟩ := json_index_error_of_not_has_name head hh
      exact ⟨e, by simp [extract_names, he]⟩
    · have htail : ∃ i ∈ tail, json_has_name i = false := by
        obtain ⟨i, hi, hif⟩ := h
        rcases List.mem_cons.mp hi with rfl | hmem
        · exact absurd hif hh
        · exact ⟨i, hmem, hif⟩
      obtain ⟨e, he⟩ := ih htail
      cases hidx : json_index head "name" with
      | error e2 => exact ⟨e2, by simp [extract_names, hidx]⟩
      | ok v => exact ⟨e, by simp [extract_names, hidx, he]⟩

/-- The error line of `update_semantic_model` is never the success line
(their first characters differ). -/
theorem update_error_line_ne_success (s t : String) :
    "❌ Erro ao atualizar o modelo semântico: " ++ s ++ " - " ++ t ≠
      refresh_success_message := by
  intro h
  have h2 := congrArg (fun z => z.data.head?) h
  have h3 : (some '❌' : Option Char) = some '✅' := h2
  exact absurd h3 (by decide)

/-! ### Claims -/

/-- Claim C5: `request_access_token` raises an authentication error exactly
when the provider's reply has no `access_token` entry; the raised message
carries the provider-reported `error_description` (defaulting to
`Desconhecido`); when the token entry is present the operation returns that
token. -/
theorem request_access_token_error_iff_missing_token (tr : TokenResponse) :
    (tr.access_token = none →
      request_access_token tr =
        .error ("Erro na autenticação: " ++ tr.error_description.getD "Desconhecido")) ∧
    (∀ t, tr.access_token = some t → request_access_token tr = .ok t) ∧
    ((∃ e, request_access_token tr = .error e) ↔ tr.access_token = none) := by
  refine ⟨fun h => by simp [request_access_token, h],
          fun t h => by simp [request_access_token, h], ?_, ?_⟩
  · rintro ⟨e, he⟩
    cases htr : tr.access_token with
    | none => rfl
    | some t => simp [request_access_token, htr] at he
  · intro h
    exact ⟨"Erro na autenticação: " ++ tr.error_description.getD "Desconhecido",
      by simp [request_access_token, h]⟩

/-- Witness for C5: a reply carrying a token is returned as-is; a reply
without a token raises with the provider's description. -/
theorem request_access_token_error_iff_missing_token_witness :
    request_access_token ⟨some "tok", none⟩ = .ok "tok" ∧
    request_access_token ⟨none, some "bad credentials"⟩ =
      .error ("Erro na autenticação: " ++
        (Option.some "bad credentials").getD "Desconhecido") :=
  ⟨(request_access_token_error_iff_missing_token ⟨some "tok", none⟩).2.1 "tok" rfl,
   (request_access_token_error_iff_missing_token ⟨none, some "bad credentials"⟩).1 rfl⟩

/-- Claim C1 (evaluated at the failing input): the code does not cache the
credential. Starting from a provider that will issue `tok1` and then
`tok2`, the first invocation of `request_access_token` performs one network
request and returns `tok1`; a second invocation performs a second network
request (total 2, not 1) and returns `tok2`, a different token — contrary
to the claim that the second call makes zero network requests and returns
the identical token. -/
theorem request_access_token_no_cache_eval :
    (request_access_token_run ⟨[⟨some "tok1", none⟩, ⟨some "tok2", none⟩], 0⟩).1 =
      .ok "tok1" ∧
    (request_access_token_run ⟨[⟨some "tok1", none⟩, ⟨some "tok2", none⟩], 0⟩).2.network_calls
      = 1 ∧
    (request_access_token_run
      (request_access_token_run ⟨[⟨some "tok1", none⟩, ⟨some "tok2", none⟩], 0⟩).2).1 =
      .ok "tok2" ∧
    (request_access_token_run
      (request_access_token_run ⟨[⟨some "tok1", none⟩, ⟨some "tok2", none⟩], 0⟩).2).2.network_calls
      = 2 ∧
    (request_access_token_run ⟨[⟨some "tok1", none⟩, ⟨some "tok2", none⟩], 0⟩).1 ≠
      (request_access_token_run
        (request_access_token_run ⟨[⟨some "tok1", none⟩, ⟨some "tok2", none⟩], 0⟩).2).1 := by
  refine ⟨rfl, rfl, rfl, rfl, ?_⟩
  intro h
  exact absurd (Except.ok.inj h) (by decide)

/-- Claim C4: `update_semantic_model` prints the success line exactly when
the upstream status is 202; every other status (200 included) yields the
error line. -/
theorem update_semantic_model_success_iff_202 (group_id dataset_id access_token : String)
    (response : HttpResponse) :
    (update_semantic_model group_id dataset_id access_token response).2 =
      [refresh_success_message] ↔ response.status_code = 202 := by
  by_cases h : response.status_code = 202
  · simp [update_semantic_model, h]
  · simp only [update_semantic_model, if_neg h]
    constructor
    · intro hc
      have := List.head_eq_of_cons_eq hc
      exact absurd this (update_error_line_ne_success _ _)
    · intro hc
      exact absurd hc h

/-- Claim C2: on any non-200 response, each listing operation returns the
empty sequence (and a printed error notice) without raising: the result is
an `Except.ok` carrying `Json.arr []` in every case. -/
theorem listing_ops_non200_empty (access_token group_id : String) (response : HttpResponse)
    (h : response.status_code ≠ 200) :
    (list_workspaces access_token response).2 =
      .ok (.arr [], ["Erro ao listar workspaces: " ++ toString response.status_code ++
        " - " ++ response.text]) ∧
    (list_reports access_token group_id response).2 =
      .ok (.arr [], ["Erro ao listar relatórios: " ++ toString response.status_code ++
        " - " ++ response.text]) ∧
    (list_datasets access_token group_id response).2 =
      .ok (.arr [],
        if response.status_code = 401 then
          ["❌ Erro 401: Token inválido ou sem permissão.",
           "Verifique se as permissões do aplicativo estão configuradas corretamente no Azure."]
        else
          ["❌ Erro " ++ toString response.status_code ++ ": " ++ response.text]) := by
  refine ⟨by simp [list_workspaces, h], by simp [list_reports, h], ?_⟩
  by_cases h401 : response.status_code = 401
  · simp [list_datasets, h, h401]
  · simp [list_datasets, h, h401]

/-- Witness for C2: a 404 response makes all three listing operations
return the empty array with their respective notices, without raising. -/
theorem listing_ops_non200_empty_witness :
    (404 : Nat) ≠ 200 ∧
    ((list_workspaces "tok" ⟨404, none, "nf"⟩).2 =
      .ok (.arr [], ["Erro ao listar workspaces: " ++ toString (404 : Nat) ++
        " - " ++ "nf"]) ∧
    (list_reports "tok" "g1" ⟨404, none, "nf"⟩).2 =
      .ok (.arr [], ["Erro ao listar relatórios: " ++ toString (404 : Nat) ++
        " - " ++ "nf"]) ∧
    (list_datasets "tok" "g1" ⟨404, none, "nf"⟩).2 =
      .ok (.arr [],
        if (404 : Nat) = 401 then
          ["❌ Erro 401: Token inválido ou sem permissão.",
           "Verifique se as permissões do aplicativo estão configuradas corretamente no Azure."]
        else
          ["❌ Erro " ++ toString (404 : Nat) ++ ": " ++ "nf"])) :=
  ⟨by decide, listing_ops_non200_empty "tok" "g1" ⟨404, none, "nf"⟩ (by decide)⟩

/-- Claim C3: on a 200 response whose JSON body carries a `value` array,
each listing operation returns exactly that array (hence the same length,
the same order, and unaltered element fields) and prints nothing. -/
theorem listing_ops_200_value_exact (access_token group_id : String) (response : HttpResponse)
    (fields : List (String × Json)) (xs : List Json)
    (h200 : response.status_code = 200)
    (hbody : response.body = some (.obj fields))
    (hvalue : lookupField fields "value" = some (.arr xs)) :
    (list_workspaces access_token response).2 = .ok (.arr xs, []) ∧
    (list_reports access_token group_id response).2 = .ok (.arr xs, []) ∧
    (list_datasets access_token group_id response).2 = .ok (.arr xs, []) := by
  refine ⟨?_, ?_, ?_⟩ <;>
    simp [list_workspaces, list_reports, list_datasets, h200, hbody, json_dict_get, hvalue]

/-- Witness for C3: a 200 response whose `value` array holds one workspace
row is returned exactly. -/
theorem listing_ops_200_value_exact_witness :
    (200 : Nat) = 200 ∧
    ((list_workspaces "tok"
        ⟨200, some (.obj [("value",
          .arr [.obj [("id", .str "w1"), ("name", .str "Sales")]])]), ""⟩).2 =
      .ok (.arr [.obj [("id", .str "w1"), ("name", .str "Sales")]], []) ∧
    (list_reports "tok" "g1"
        ⟨200, some (.obj [("value",
          .arr [.obj [("id", .str "w1"), ("name", .str "Sales")]])]), ""⟩).2 =
      .ok (.arr [.obj [("id", .str "w1"), ("name", .str "Sales")]], []) ∧
    (list_datasets "tok" "g1"
        ⟨200, some (.obj [("value",
          .arr [.obj [("id", .str "w1"), ("name", .str "Sales")]])]), ""⟩).2 =
      .ok (.arr [.obj [("id", .str "w1"), ("name", .str "Sales")]], [])) :=
  ⟨rfl, listing_ops_200_value_exact "tok" "g1"
    ⟨200, some (.obj [("value", .arr [.obj [("id", .str "w1"), ("name", .str "Sales")]])]), ""⟩
    [("value", .arr [.obj [("id", .str "w1"), ("name", .str "Sales")]])]
    [.obj [("id", .str "w1"), ("name", .str "Sales")]] rfl rfl rfl⟩

/-- Claim C8 counterexample: a 200 response whose body is not valid JSON
makes `list_workspaces` raise the JSON decode error past the call boundary
instead of degrading to an empty sequence with a notice. -/
theorem list_workspaces_malformed_200_raises :
    (list_workspaces "tok" ⟨200, none, "not json"⟩).2 = .error "JSONDecodeError" := rfl

/-- Claim C8 as amended: on a 200 response whose body is not valid JSON,
only `list_datasets` degrades to an empty sequence with a printed notice;
`list_workspaces` and `list_reports` raise the JSON decode error. -/
theorem malformed_200_degradation_amended (access_token group_id : String)
    (response : HttpResponse)
    (h200 : response.status_code = 200) (hbody : response.body = none) :
    (list_datasets access_token group_id response).2 =
      .ok (.arr [], ["❌ Erro ao decodificar JSON: resposta vazia."]) ∧
    (list_workspaces access_token response).2 = .error "JSONDecodeError" ∧
    (list_reports access_token group_id response).2 = .error "JSONDecodeError" := by
  refine ⟨?_, ?_, ?_⟩ <;> simp [list_datasets, list_workspaces, list_reports, h200, hbody]

/-- Witness for amended C8: the three behaviours at a concrete non-JSON
200 response. -/
theorem malformed_200_degradation_amended_witness :
    (list_datasets "tok" "g1" ⟨200, none, "<html>"⟩).2 =
      .ok (.arr [], ["❌ Erro ao decodificar JSON: resposta vazia."]) ∧
    (list_workspaces "tok" ⟨200, none, "<html>"⟩).2 = .error "JSONDecodeError" ∧
    (list_reports "tok" "g1" ⟨200, none, "<html>"⟩).2 = .error "JSONDecodeError" :=
  malformed_200_degradation_amended "tok" "g1" ⟨200, none, "<html>"⟩ rfl rfl

/-- Claim C6 counterexample: a report whose `datasetId` key is present but
holds the empty string. The key is present (`json_get?` returns it), yet
the loop of `list_reports_and_tables` makes zero lineage calls for it and
flags it as having no bound model — contrary to the claim that every
report with a present `datasetId` gets exactly one lineage lookup
(Python `if dataset_id:` tests truthiness, not presence). -/
theorem report_present_empty_datasetId_zero_calls :
    json_get? (Json.obj [("id", Json.str "r1"), ("name", Json.str "Q1"),
        ("datasetId", Json.str "")]) "datasetId" = some (Json.str "") ∧
    list_reports_and_tables [Json.obj [("id", Json.str "r1"), ("name", Json.str "Q1"),
        ("datasetId", Json.str "")]] =
      [{ lineage_call_args := [], no_bound_model := true }] :=
  ⟨rfl, rfl⟩

/-- Claim C6 as amended: in `list_reports_and_tables`, each report is
processed independently by the loop body; a report whose `datasetId` is
present and truthy gets exactly one lineage lookup (with that id) and is
not flagged; a report whose `datasetId` is absent — or present but falsy,
such as the empty string — gets zero lineage calls and is flagged as
having no bound model. -/
theorem reports_lineage_calls_amended :
    (∀ reports : List Json, list_reports_and_tables reports = reports.map process_report) ∧
    (∀ report d, json_get? report "datasetId" = some d → d.truthy = true →
      process_report report = { lineage_call_args := [d], no_bound_model := false }) ∧
    (∀ report, json_get? report "datasetId" = none →
      process_report report = { lineage_call_args := [], no_bound_model := true }) ∧
    (∀ report d, json_get? report "datasetId" = some d → d.truthy = false →
      process_report report = { lineage_call_args := [], no_bound_model := true }) := by
  refine ⟨?_, ?_, ?_, ?_⟩
  · intro reports
    induction reports with
    | nil => rfl
    | cons r rest ih => simp [list_reports_and_tables, ih]
  · intro report d hq ht
    simp [process_report, hq, ht]
  · intro report hq
    simp [process_report, hq]
  · intro report d hq ht
    simp [process_report, hq, ht]

/-- Witness for amended C6: a report bound to dataset `d1` yields exactly
one lineage call with `d1`; a report without the key yields zero calls and
the flag. -/
theorem reports_lineage_calls_amended_witness :
    process_report (Json.obj [("id", Json.str "r1"), ("datasetId", Json.str "d1")]) =
      { lineage_call_args := [Json.str "d1"], no_bound_model := false } ∧
    process_report (Json.obj [("id", Json.str "r2")]) =
      { lineage_call_args := [], no_bound_model := true } :=
  ⟨reports_lineage_calls_amended.2.1
      (Json.obj [("id", Json.str "r1"), ("datasetId", Json.str "d1")])
      (Json.str "d1") rfl rfl,
   reports_lineage_calls_amended.2.2.1 (Json.obj [("id", Json.str "r2")]) rfl⟩

/-- Claim C7: `get_dataset_tables` returns the empty sequence on 403 with
a dedicated two-line permission-denied notice, returns the empty sequence
with a one-line generic notice on every other non-success status, and the
two notices are distinct for all message parameters. -/
theorem get_dataset_tables_403_distinct_notice (access_token group_id dataset_id : String)
    (response : HttpResponse) :
    (response.status_code = 403 →
      (get_dataset_tables access_token group_id dataset_id response).2 =
        .ok ([], ["🚫 Permissão negada para acessar o dataset " ++ dataset_id ++ ".",
                  "Erro 403: " ++ response.text])) ∧
    (response.status_code ≠ 200 → response.status_code ≠ 403 →
      (get_dataset_tables access_token group_id dataset_id response).2 =
        .ok ([], ["❌ Erro ao obter tabelas do dataset " ++ dataset_id ++ ": " ++
          toString response.status_code ++ " - " ++ response.text])) ∧
    (∀ d1 t1 d2 n2 t2 : String,
      ["🚫 Permissão negada para acessar o dataset " ++ d1 ++ ".", "Erro 403: " ++ t1] ≠
      ["❌ Erro ao obter tabelas do dataset " ++ d2 ++ ": " ++ n2 ++ " - " ++ t2]) := by
  refine ⟨?_, ?_, ?_⟩
  · intro h403
    have h200 : ¬ response.status_code = 200 := by omega
    simp [get_dataset_tables, h200, h403]
  · intro h200 h403
    simp [get_dataset_tables, h200, h403]
  · intro d1 t1 d2 n2 t2 h
    simp at h

/-- Witness for C7: a 403 response and a 500 response, both returning the
empty sequence with their distinct notices. -/
theorem get_dataset_tables_403_distinct_notice_witness :
    (get_dataset_tables "tok" "g1" "d1" ⟨403, none, "denied"⟩).2 =
      .ok ([], ["🚫 Permissão negada para acessar o dataset " ++ "d1" ++ ".",
                "Erro 403: " ++ "denied"]) ∧
    (get_dataset_tables "tok" "g1" "d1" ⟨500, none, "boom"⟩).2 =
      .ok ([], ["❌ Erro ao obter tabelas do dataset " ++ "d1" ++ ": " ++
        toString (500 : Nat) ++ " - " ++ "boom"]) :=
  ⟨(get_dataset_tables_403_distinct_notice "tok" "g1" "d1" ⟨403, none, "denied"⟩).1 rfl,
   (get_dataset_tables_403_distinct_notice "tok" "g1" "d1" ⟨500, none, "boom"⟩).2.1
     (by decide) (by decide)⟩

/-- Claim C9: `get_dataset_tables` ignores its `group_id` argument
entirely — for any two workspace ids (all other arguments and the upstream
response equal), both the issued request and the result are identical. -/
theorem get_dataset_tables_ignores_group_id (access_token g1 g2 dataset_id : String)
    (response : HttpResponse) :
    get_dataset_tables access_token g1 dataset_id response =
      get_dataset_tables access_token g2 dataset_id response := rfl

/-- Claim C10: on a 200 lineage response, `get_dataset_tables` returns
exactly the `name` entries of `datasetSchema.tables` in their original
order when every entry carries a `name` key, and raises (the unguarded
subscript) when some entry lacks one. -/
theorem get_dataset_tables_200_names_extraction
    (access_token group_id dataset_id : String) (response : HttpResponse)
    (fields schema_fields : List (String × Json)) (items : List Json)
    (h200 : response.status_code = 200)
    (hbody : response.body = some (.obj fields))
    (hds : lookupField fields "datasetSchema" = some (.obj schema_fields))
    (htab : lookupField schema_fields "tables" = some (.arr items)) :
    ((∀ i ∈ items, json_has_name i = true) →
      (get_dataset_tables access_token group_id dataset_id response).2 =
        .ok (items.map json_name_value, [])) ∧
    ((∃ i ∈ items, json_has_name i = false) →
      ∃ e, (get_dataset_tables access_token group_id dataset_id response).2 =
        .error e) := by
  constructor
  · intro hall
    simp [get_dataset_tables, h200, hbody, json_dict_get, hds, htab, py_iter,
      extract_names_ok items hall]
  · intro hsome
    obtain ⟨e, he⟩ := extract_names_error items hsome
    exact ⟨e, by simp [get_dataset_tables, h200, hbody, json_dict_get, hds, htab,
      py_iter, he]⟩

/-- Witness for C10: a lineage body with tables `T1`, `T2` yields exactly
`[T1, T2]`; a lineage body whose single table entry lacks a `name` key
makes the operation raise. -/
theorem get_dataset_tables_200_names_extraction_witness :
    (get_dataset_tables "tok" "g1" "d1"
        ⟨200, some (.obj [("datasetSchema", .obj [("tables",
          .arr [.obj [("name", .str "T1")], .obj [("name", .str "T2")]])])]), ""⟩).2 =
      .ok ([Json.str "T1", Json.str "T2"], []) ∧
    (∃ e, (get_dataset_tables "tok" "g1" "d1"
        ⟨200, some (.obj [("datasetSchema", .obj [("tables",
          .arr [.obj [("source", .str "sql")]])])]), ""⟩).2 = .error e) :=
  ⟨by
    have h := (get_dataset_tables_200_names_extraction "tok" "g1" "d1"
      ⟨200, some (.obj [("datasetSchema", .obj [("tables",
        .arr [.obj [("name", .str "T1")], .obj [("name", .str "T2")]])])]), ""⟩
      [("datasetSchema", .obj [("tables",
        .arr [.obj [("name", .str "T1")], .obj [("name", .str "T2")]])])]
      [("tables", .arr [.obj [("name", .str "T1")], .obj [("name", .str "T2")]])]
      [.obj [("name", .str "T1")], .obj [("name", .str "T2")]]
      rfl rfl rfl rfl).1 (by decide)
    exact h,
   (get_dataset_tables_200_names_extraction "tok" "g1" "d1"
      ⟨200, some (.obj [("datasetSchema", .obj [("tables",
        .arr [.obj [("source", .str "sql")]])])]), ""⟩
      [("datasetSchema", .obj [("tables", .arr [.obj [("source", .str "sql")]])])]
      [("tables", .arr [.obj [("source", .str "sql")]])]
      [.obj [("source", .str "sql")]]
      rfl rfl rfl rfl).2
     ⟨.obj [("source", .str "sql")], by simp, rfl⟩⟩
